import Mathlib

/-!
Verification of the httptap request-analysis pipeline.

Shallow embedding of the repository source:
  * `src/httptap/utils.py` — `mask_sensitive_value`, `calculate_days_until`,
    `parse_http_date` (strings modelled as lists of code points, Python
    datetimes as microsecond counts / calendar structures, floats as ℚ);
  * `src/httptap/analyzer.py` — `HTTPTapAnalyzer.analyze_url` and
    `HTTPTapAnalyzer._analyze_single_request` (the request executor and the
    stdlib `urljoin` are parameters of the embedding, as they are pluggable
    dependencies in the source);
  * the data model (`TimingMetrics`, `ResponseInfo`, `StepMetrics`) and the
    timing reconciliation (`_build_timing_metrics`) live in repository files
    that are not part of the provided source tree; those definitions are
    modelled from the specification, as marked in their doc comments.
-/

namespace Httptap

/-- Modelled from the spec: `TimingMetrics` (models.py is not in the provided
source tree).  One request phase breakdown in milliseconds; Python floats are
idealised as rationals.  All fields default to zero / false, matching the
dataclass defaults exercised by `tests/test_models.py`. -/
structure TimingMetrics where
  dns_ms : ℚ := 0
  connect_ms : ℚ := 0
  tls_ms : ℚ := 0
  ttfb_ms : ℚ := 0
  total_ms : ℚ := 0
  wait_ms : ℚ := 0
  xfer_ms : ℚ := 0
  is_estimated : Bool := false
  deriving Repr, DecidableEq

/-- Modelled from the spec: `TimingMetrics.calculate_derived()` —
`wait_ms = max(0, ttfb_ms - (dns_ms + connect_ms + tls_ms))` and
`xfer_ms = max(0, total_ms - ttfb_ms)`, both clamping negative raw
differences to zero (spec section 3, confirmed by
`tests/test_models.py::TestTimingMetrics`). -/
def TimingMetrics.calculate_derived (t : TimingMetrics) : TimingMetrics :=
  { t with
    wait_ms := max 0 (t.ttfb_ms - (t.dns_ms + t.connect_ms + t.tls_ms))
    xfer_ms := max 0 (t.total_ms - t.ttfb_ms) }

/-- Modelled from the spec: the reconciliation step of the request executor
(`_build_timing_metrics` in http_client.py, which is not in the provided
source tree), spec section 4.4 step 11.  `base` is the record returned by the
timing collector (dns_ms, ttfb_ms, total_ms set; connect_ms/tls_ms default
zero); `connect_ms?`/`tls_ms?` are the trace collector readings (`none` when
the transport supplied no precise value).
  * both present: used directly, `is_estimated = false`;
  * HTTPS and either missing: `connection_phase_ms = max(0, ttfb_ms - dns_ms)`
    split 30 percent to connect and 70 percent to TLS, keeping any precisely
    traced entry, `is_estimated = true`;
  * plain HTTP and either missing: the whole phase goes to connect, TLS stays
    zero, `is_estimated = false`.
Derived fields are computed at the end. -/
def build_timing_metrics (base : TimingMetrics) (is_https : Bool)
    (connect_ms? tls_ms? : Option ℚ) : TimingMetrics :=
  match connect_ms?, tls_ms? with
  | some c, some t =>
      TimingMetrics.calculate_derived
        { base with connect_ms := c, tls_ms := t, is_estimated := false }
  | c?, t? =>
      let connection_phase_ms := max 0 (base.ttfb_ms - base.dns_ms)
      if is_https then
        TimingMetrics.calculate_derived
          { base with
            connect_ms := c?.getD (3 / 10 * connection_phase_ms)
            tls_ms := t?.getD (7 / 10 * connection_phase_ms)
            is_estimated := true }
      else
        TimingMetrics.calculate_derived
          { base with
            connect_ms := connection_phase_ms
            tls_ms := 0
            is_estimated := false }

/-- Embeds utils.py `MASK_PATTERN = "****"`; strings are modelled as lists of
code points. -/
def MASK_PATTERN : List Char := ['*', '*', '*', '*']

/-- Embeds utils.py `mask_sensitive_value(value, show_chars=4)`:
if `len(value) <= show_chars * 2` return `"****"`, else
`value[:show_chars] + "****" + value[-show_chars:]`. -/
def mask_sensitive_value (value : List Char) (show_chars : Nat := 4) :
    List Char :=
  if value.length ≤ show_chars * 2 then MASK_PATTERN
  else value.take show_chars ++ MASK_PATTERN
    ++ value.drop (value.length - show_chars)

/-- Modelled from the spec: `NetworkInfo` (models.py is not in the provided
source tree).  Connection-level facts; only the fields the claims touch are
carried, all optional exactly as in the spec. -/
structure NetworkInfo where
  ip : Option String := none
  tls_version : Option String := none
  tls_cipher : Option String := none
  deriving Repr, DecidableEq

/-- Modelled from the spec: `ResponseInfo` (models.py is not in the provided
source tree).  `status` is nullable until a response is received; `location`
is the raw Location header, which may be the empty string, distinct from an
absent header (`none`). -/
structure ResponseInfo where
  status : Option Int := none
  bytes : Nat := 0
  location : Option String := none
  deriving Repr, DecidableEq

/-- Modelled from the spec: `StepMetrics` (models.py is not in the provided
source tree).  One attempt in a possibly single-step chain; created with the
sub-records at their defaults and `error`/`note` null, then populated. -/
structure StepMetrics where
  url : String
  step_number : Nat
  timing : TimingMetrics := {}
  network : NetworkInfo := {}
  response : ResponseInfo := {}
  error : Option String := none
  note : Option String := none
  deriving Repr, DecidableEq

/-- Modelled from the spec: `StepMetrics.has_error` — true when the `error`
field is populated (`error is not None`), per
`tests/test_models.py::test_has_error_returns_true_when_error_present`. -/
def StepMetrics.has_error (s : StepMetrics) : Bool := s.error.isSome

/-- Modelled from the spec: `StepMetrics.is_redirect` — true when the
response carries a 3xx status and a Location header is present
(`location is not None`; an empty-string header counts as present), per
`tests/test_models.py::TestStepMetrics`. -/
def StepMetrics.is_redirect (s : StepMetrics) : Bool :=
  match s.response.status with
  | none => false
  | some st => decide (300 ≤ st) && decide (st < 400)
      && s.response.location.isSome

/-- Failures raised by the request executor, as distinguished by the two
except clauses in `HTTPTapAnalyzer._analyze_single_request`
(analyzer.py lines 233-241): `HTTPClientError` versus any other exception.
`str(e)` is the carried message in both cases. -/
inductive RequestFailure where
  | clientError (msg : String)
  | unexpected (msg : String)
  deriving Repr, DecidableEq

/-- Message of the failure, Python `str(e)`. -/
def RequestFailure.msg : RequestFailure → String
  | .clientError m => m
  | .unexpected m => m

/-- Result of `RequestExecutor.execute(options)` as consumed by
analyzer.py lines 226-231: a timing/network/response triple on success. -/
structure RequestOutcome where
  timing : TimingMetrics := {}
  network : NetworkInfo := {}
  response : ResponseInfo := {}
  deriving Repr, DecidableEq

/-- Behaviour of the pluggable request executor for one analyzer: the
outcome of `self._request.execute(options)` as a function of the requested
URL (the remaining option fields — timeout, http2, verify_ssl, headers,
injected resolvers — are fixed per analyzer and folded into the function). -/
def Executor : Type := String → Except RequestFailure RequestOutcome

/-- Embeds `HTTPTapAnalyzer._analyze_single_request` (analyzer.py lines
186-243): create the step, execute the request, copy the outcome into the
step on success; on any failure keep the step and set `error` to the failure
message and `note` to the step-numbered annotation. -/
def analyze_single_request (execute : Executor) (url : String)
    (step_number : Nat) : StepMetrics :=
  let step : StepMetrics := { url := url, step_number := step_number }
  match execute url with
  | .ok outcome =>
      { step with
        timing := outcome.timing
        network := outcome.network
        response := outcome.response }
  | .error (.clientError e) =>
      { step with
        error := some e
        note := some ("Step " ++ toString step_number ++ ": Request failed") }
  | .error (.unexpected e) =>
      { step with
        error := some e
        note := some ("Step " ++ toString step_number ++ ": Unexpected error") }

/-- Configuration of one `HTTPTapAnalyzer` as far as `analyze_url` reads it:
the `follow_redirects` and `max_redirects` constructor arguments
(`max_redirects` is a Python int, hence ℤ), the executor behaviour, and the
stdlib `urllib.parse.urljoin` used at analyzer.py line 175 (external library
code, kept as a parameter of the embedding). -/
structure AnalyzerConfig where
  follow_redirects : Bool
  max_redirects : Int
  execute : Executor
  urljoin : String → String → String

/-- Python truthiness of `next_url = step.response.location` at
analyzer.py line 173: `None` and the empty string are falsy. -/
def locationTruthy : Option String → Bool
  | none => false
  | some s => s ≠ ""

/-- Body of the `while redirect_count <= self.max_redirects` loop of
`HTTPTapAnalyzer.analyze_url` (analyzer.py lines 153-184), written as
recursion on the remaining iteration budget.  With `redirect_count` starting
at 0 and incremented exactly once per followed redirect, the loop guard
`redirect_count <= max_redirects` is equivalent to a positive budget of
`max_redirects - redirect_count + 1` iterations, so `fuel` carries that
quantity.  `step_number` is `len(steps) + 1`, which advances by one each
iteration since each iteration appends exactly one step. -/
def analyze_loop (cfg : AnalyzerConfig) :
    Nat → String → Nat → List StepMetrics
  | 0, _, _ => []
  | fuel + 1, current_url, step_number =>
    let step := analyze_single_request cfg.execute current_url step_number
    step ::
      (if !cfg.follow_redirects then []
       else if step.has_error then []
       else if step.is_redirect then
         let next_url := step.response.location
         if locationTruthy next_url then
           analyze_loop cfg fuel (cfg.urljoin current_url (next_url.getD ""))
             (step_number + 1)
         else []
       else [])

/-- Embeds `HTTPTapAnalyzer.analyze_url` (analyzer.py lines 112-184).  When
`max_redirects < 0` the loop guard `0 <= max_redirects` fails at once and the
empty list is returned; otherwise the loop starts with a budget of
`max_redirects + 1` iterations at step number 1. -/
def analyze_url (cfg : AnalyzerConfig) (url : String) : List StepMetrics :=
  if cfg.max_redirects < 0 then []
  else analyze_loop cfg (cfg.max_redirects.toNat + 1) url 1

/-- Embeds Python `str.replace("GMT", "+0000")` as used at utils.py line
109: every non-overlapping occurrence of `GMT`, scanned left to right, is
replaced by `+0000`. -/
def replace_gmt : List Char → List Char
  | 'G' :: 'M' :: 'T' :: rest =>
      '+' :: '0' :: '0' :: '0' :: '0' :: replace_gmt rest
  | c :: rest => c :: replace_gmt rest
  | [] => []

/-- A Python `datetime` value as far as `parse_http_date` produces one:
calendar fields plus the timezone offset in minutes (`none` models a naive
datetime; `strptime` with `%z` in the format always yields an aware one). -/
structure PyDatetime where
  year : Nat
  month : Nat
  day : Nat
  hour : Nat
  minute : Nat
  second : Nat
  tz_offset_minutes : Option Int
  deriving Repr, DecidableEq

/-- Gregorian leap-year rule, as in CPython `datetime`. -/
def is_leap (y : Nat) : Bool := (y % 4 = 0 && y % 100 ≠ 0) || y % 400 = 0

/-- Days in a month, as in CPython `datetime`. -/
def days_in_month (y m : Nat) : Nat :=
  if m = 2 then (if is_leap y then 29 else 28)
  else if m = 4 ∨ m = 6 ∨ m = 9 ∨ m = 11 then 30
  else 31

/-- Case-insensitive ASCII prefix match (CPython `_strptime` compiles its
regex with `re.IGNORECASE`): on success returns the rest of the input. -/
def matchCI : List Char → List Char → Option (List Char)
  | [], s => some s
  | _ :: _, [] => none
  | k :: ks, c :: cs =>
      if k.toLower = c.toLower then matchCI ks cs else none

/-- Consume one or more whitespace characters — CPython `_strptime` turns
every whitespace run in the format into the regex `\s+`. -/
def ws1 : List Char → Option (List Char)
  | c :: cs => if c.isWhitespace then some (ws1Rest cs) else none
  | [] => none
where
  ws1Rest : List Char → List Char
    | c :: cs => if c.isWhitespace then ws1Rest cs else c :: cs
    | [] => []

/-- Parse exactly `n` decimal digits. -/
def digitsN : Nat → List Char → Option (Nat × List Char)
  | 0, s => some (0, s)
  | n + 1, c :: cs =>
      if c.isDigit then
        match digitsN n cs with
        | some (v, rest) => some ((c.toNat - '0'.toNat) * 10 ^ n + v, rest)
        | none => none
      else none
  | _ + 1, [] => none

/-- Parse a one-or-two-digit numeric field, modelling the ordered regex
alternations CPython `_strptime` uses (two-digit forms first, then a single
digit): the two-digit branch is taken when the leading two characters are
digits whose value lies in `[minTwo, maxTwo]`, otherwise a single digit with
value at least `minOne` is accepted. -/
def twoDigitField (minTwo maxTwo minOne : Nat) :
    List Char → Option (Nat × List Char)
  | c1 :: c2 :: cs =>
      if c1.isDigit ∧ c2.isDigit then
        let v := (c1.toNat - '0'.toNat) * 10 + (c2.toNat - '0'.toNat)
        if minTwo ≤ v ∧ v ≤ maxTwo then some (v, cs) else none
      else if c1.isDigit ∧ minOne ≤ c1.toNat - '0'.toNat then
        some (c1.toNat - '0'.toNat, c2 :: cs)
      else none
  | [c1] =>
      if c1.isDigit ∧ minOne ≤ c1.toNat - '0'.toNat then
        some (c1.toNat - '0'.toNat, [])
      else none
  | [] => none

/-- Abbreviated weekday names recognised by `%a` (C locale). -/
def dayAbbrevs : List (List Char) :=
  [['m','o','n'], ['t','u','e'], ['w','e','d'], ['t','h','u'],
   ['f','r','i'], ['s','a','t'], ['s','u','n']]

/-- Abbreviated month names recognised by `%b` (C locale), in calendar
order. -/
def monthAbbrevs : List (List Char) :=
  [['j','a','n'], ['f','e','b'], ['m','a','r'], ['a','p','r'],
   ['m','a','y'], ['j','u','n'], ['j','u','l'], ['a','u','g'],
   ['s','e','p'], ['o','c','t'], ['n','o','v'], ['d','e','c']]

/-- Match one alternative from a list of keywords case-insensitively,
returning its 1-based index and the rest of the input. -/
def matchAlt (kws : List (List Char)) (s : List Char) (idx : Nat := 1) :
    Option (Nat × List Char) :=
  match kws with
  | [] => none
  | k :: ks =>
      match matchCI k s with
      | some rest => some (idx, rest)
      | none => matchAlt ks s (idx + 1)

/-- Parse the `%z` directive: `Z` (offset zero) or a sign, a two-digit hour,
an optional colon and a two-digit minute whose tens digit is 0-5, following
the CPython `_strptime` pattern.  Offsets carrying a seconds part, which
CPython also accepts, are not modelled — the repository only feeds this
parser offsets of the `+0000` shape it substituted for `GMT`, and the claims
evaluate it on such inputs.  Returns the offset in minutes. -/
def parseTzOffset : List Char → Option (Int × List Char)
  | 'Z' :: cs => some (0, cs)
  | c :: cs =>
      if c = '+' ∨ c = '-' then
        match digitsN 2 cs with
        | some (hh, rest) =>
            let rest' := match rest with
              | ':' :: r => r
              | r => r
            match rest' with
            | m1 :: m2 :: rest'' =>
                if m1.isDigit ∧ m1.toNat - '0'.toNat ≤ 5 ∧ m2.isDigit then
                  let mm := (m1.toNat - '0'.toNat) * 10 + (m2.toNat - '0'.toNat)
                  let off : Int := (hh : Int) * 60 + (mm : Int)
                  some (if c = '-' then -off else off, rest'')
                else none
            | _ => none
        | none => none
      else none
  | [] => none

/-- Embeds CPython `datetime.strptime(http_date, "%a, %d %b %Y %H:%M:%S %z")`
for the fixed RFC 7231 format used at utils.py lines 110-113: weekday
abbreviation, comma, day (1-31), month abbreviation, four-digit year,
HH:MM:SS (hour 0-23, minute 0-59, second 0-61 at the regex level), a UTC
offset, and nothing after it.  Construction of the resulting `datetime`
raises `ValueError` — modelled as `none` — when the year is 0, the day
exceeds the length of the month, the second exceeds 59, or the offset does
not satisfy `|offset| < 24h`. -/
def strptime_rfc7231 (s : List Char) : Option PyDatetime := do
  let (_, s) ← matchAlt dayAbbrevs s
  let s ← match s with
    | ',' :: r => some r
    | _ => none
  let s ← ws1 s
  let (day, s) ← twoDigitField 1 31 1 s
  let s ← ws1 s
  let (month, s) ← matchAlt monthAbbrevs s
  let s ← ws1 s
  let (year, s) ← digitsN 4 s
  let s ← ws1 s
  let (hour, s) ← twoDigitField 0 23 0 s
  let s ← match s with
    | ':' :: r => some r
    | _ => none
  let (minute, s) ← twoDigitField 0 59 0 s
  let s ← match s with
    | ':' :: r => some r
    | _ => none
  let (second, s) ← twoDigitField 0 61 0 s
  let s ← ws1 s
  let (off, s) ← parseTzOffset s
  if s = [] ∧ 1 ≤ year ∧ day ≤ days_in_month year month ∧ second ≤ 59
      ∧ off.natAbs < 1440 then
    some ⟨year, month, day, hour, minute, second, some off⟩
  else none

/-- Civil successor day, defined away from the upper calendar bound. -/
def next_day (y m d : Nat) : Nat × Nat × Nat :=
  if d < days_in_month y m then (y, m, d + 1)
  else if m < 12 then (y, m + 1, 1)
  else (y + 1, 1, 1)

/-- Civil predecessor day, defined away from the lower calendar bound. -/
def prev_day (y m d : Nat) : Nat × Nat × Nat :=
  if 1 < d then (y, m, d - 1)
  else if 1 < m then (y, m - 1, days_in_month y (m - 1))
  else (y - 1, 12, 31)

/-- Embeds CPython `datetime.astimezone(UTC)` on the values produced here:
subtract the UTC offset from the wall-clock time and stamp the result with
offset zero.  Since `|offset| < 24h`, the date moves by at most one day;
when the move would leave the supported range `datetime(1,1,1)` to
`datetime(9999,12,31)`, CPython raises `OverflowError` (`"result out of
range"`), modelled as the error branch.  A naive input would make CPython
consult the system timezone; `parse_http_date` never produces one, and the
embedding reports it as an error. -/
def astimezone_utc (d : PyDatetime) : Except String PyDatetime :=
  match d.tz_offset_minutes with
  | none => .error "naive datetime: system timezone not modelled"
  | some off =>
    let t : Int := (d.hour * 60 + d.minute : Int) - off
    if t < 0 then
      if d.year = 1 ∧ d.month = 1 ∧ d.day = 1 then
        .error "OverflowError: result out of range"
      else
        let tn := (t + 1440).toNat
        let p := prev_day d.year d.month d.day
        .ok ⟨p.1, p.2.1, p.2.2, tn / 60, tn % 60, d.second, some 0⟩
    else if 1440 ≤ t then
      if d.year = 9999 ∧ d.month = 12 ∧ d.day = 31 then
        .error "OverflowError: result out of range"
      else
        let tn := (t - 1440).toNat
        let p := next_day d.year d.month d.day
        .ok ⟨p.1, p.2.1, p.2.2, tn / 60, tn % 60, d.second, some 0⟩
    else
      .ok ⟨d.year, d.month, d.day, t.toNat / 60, t.toNat % 60, d.second,
        some 0⟩

/-- Observable outcome of one `parse_http_date` call: a returned value
(`None` or a datetime), or an exception that escapes the function. -/
inductive ParseHttpDateOutcome where
  | returned (d : Option PyDatetime)
  | overflowError
  deriving Repr, DecidableEq

/-- Embeds utils.py `parse_http_date` (lines 91-116): replace `GMT` with
`+0000`, run `strptime` with the RFC 7231 format, convert to UTC; a
`ValueError` anywhere in parsing or construction is caught and yields
`None`, but an `OverflowError` raised by `astimezone` is not caught by the
`except ValueError` clause and escapes. -/
def parse_http_date (date_str : List Char) : ParseHttpDateOutcome :=
  match strptime_rfc7231 (replace_gmt date_str) with
  | none => .returned none
  | some parsed =>
    match astimezone_utc parsed with
    | .ok d => .returned (some d)
    | .error _ => .overflowError

/-- Concrete stand-in for the stdlib `urljoin` parameter in witness
configurations: resolves an absolute-path reference against the host
`http://example.com`, the shape exercised by the end-to-end scenarios. -/
def demo_urljoin : String → String → String :=
  fun _ rel => "http://example.com" ++ rel

/-- Witness configuration: a target whose every response is `301` with
`Location: /next` (an infinite redirect), `max_redirects = 5`. -/
def infinite_redirect_cfg : AnalyzerConfig :=
  { follow_redirects := true
    max_redirects := 5
    execute := fun _ =>
      .ok { response := { status := some 301, location := some "/next" } }
    urljoin := demo_urljoin }

/-- Witness configuration: every attempt fails with an `HTTPClientError`. -/
def failing_cfg : AnalyzerConfig :=
  { follow_redirects := true
    max_redirects := 10
    execute := fun _ =>
      .error (.clientError "DNS resolution failed: boom")
    urljoin := demo_urljoin }

/-- Witness configuration: the target answers `301` with an empty-string
(present but empty) `Location` header. -/
def empty_location_cfg : AnalyzerConfig :=
  { follow_redirects := true
    max_redirects := 10
    execute := fun _ =>
      .ok { response := { status := some 301, location := some "" } }
    urljoin := demo_urljoin }

/-- Witness configuration: `http://example.com/start` answers `301` with
`Location: /next`; every other URL answers `200`. -/
def relative_redirect_cfg : AnalyzerConfig :=
  { follow_redirects := true
    max_redirects := 10
    execute := fun u =>
      if u = "http://example.com/start" then
        .ok { response := { status := some 301, location := some "/next" } }
      else
        .ok { response := { status := some 200 } }
    urljoin := demo_urljoin }

/-- Witness configuration: redirect following disabled while the target
keeps answering `301` with a `Location` header. -/
def no_follow_cfg : AnalyzerConfig :=
  { follow_redirects := false
    max_redirects := 10
    execute := fun _ =>
      .ok { response := { status := some 301, location := some "/next" } }
    urljoin := demo_urljoin }

/-- Python timedelta resolution: microseconds per day. -/
def MICROS_PER_DAY : Int := 86400000000

/-- Embeds Python `timedelta.days` for a delta of `delta_us` microseconds:
timedelta normalises so that `days` is the floor of the delta divided by one
day (floor division, truncation toward negative infinity). -/
def timedelta_days (delta_us : Int) : Int := Int.fdiv delta_us MICROS_PER_DAY

/-- Embeds utils.py `calculate_days_until(target_date)`:
`(target_date - datetime.now(UTC)).days`.  Instants are modelled as
microseconds since an arbitrary epoch; `now_us` stands for the sampled
current time. -/
def calculate_days_until (target_us now_us : Int) : Int :=
  timedelta_days (target_us - now_us)

/-! Theorems. -/

/-- On a successful execution the step carries the outcome records and no
error (analyzer.py lines 226-231). -/
theorem analyze_single_request_ok (ex : Executor) (url : String) (k : Nat)
    (o : RequestOutcome) (ho : ex url = .ok o) :
    analyze_single_request ex url k
      = { url := url, step_number := k, timing := o.timing,
          network := o.network, response := o.response } := by
  unfold analyze_single_request
  rw [ho]

/-- On a failed execution the step is kept with `error` set to the failure
message (analyzer.py lines 233-241). -/
theorem analyze_single_request_err (ex : Executor) (url : String) (k : Nat)
    (f : RequestFailure) (hf : ex url = .error f) :
    (analyze_single_request ex url k).url = url
    ∧ (analyze_single_request ex url k).step_number = k
    ∧ (analyze_single_request ex url k).error = some f.msg := by
  unfold analyze_single_request
  rw [hf]
  cases f <;> exact ⟨rfl, rfl, rfl⟩

/-- The step record always carries the URL and step number of its own
attempt, whether it succeeded or failed. -/
theorem analyze_single_request_url_and_number (ex : Executor) (u : String)
    (k : Nat) :
    (analyze_single_request ex u k).url = u
    ∧ (analyze_single_request ex u k).step_number = k := by
  unfold analyze_single_request
  cases ex u with
  | ok o => exact ⟨rfl, rfl⟩
  | error f => cases f <;> exact ⟨rfl, rfl⟩

/-- Shape of one loop iteration: either the chain stops after the step just
produced, or the step is error-free and the loop continues on some next
URL with the budget decremented. -/
theorem analyze_loop_succ_shape (cfg : AnalyzerConfig) (fuel : Nat)
    (url : String) (k : Nat) :
    analyze_loop cfg (fuel + 1) url k
      = [analyze_single_request cfg.execute url k]
    ∨ ∃ u2, analyze_loop cfg (fuel + 1) url k
        = analyze_single_request cfg.execute url k
          :: analyze_loop cfg fuel u2 (k + 1)
        ∧ (analyze_single_request cfg.execute url k).has_error = false := by
  by_cases h1 : cfg.follow_redirects = true
  · by_cases h2 : (analyze_single_request cfg.execute url k).has_error = true
    · left; simp [analyze_loop, h1, h2]
    · by_cases h3 :
          (analyze_single_request cfg.execute url k).is_redirect = true
      · by_cases h4 : locationTruthy
            (analyze_single_request cfg.execute url k).response.location
            = true
        · right
          refine ⟨cfg.urljoin url
            ((analyze_single_request cfg.execute url k).response.location.getD
              ""), ?_, by simpa using h2⟩
          simp [analyze_loop, h1, h2, h3, h4]
        · left; simp [analyze_loop, h1, h2, h3, h4]
      · left; simp [analyze_loop, h1, h2, h3]
  · left; simp [analyze_loop, h1]

/-- Every entry of an `analyze_loop` chain other than the last is
error-free: the loop never continues past an errored step. -/
theorem analyze_loop_error_is_terminal (cfg : AnalyzerConfig) :
    ∀ (fuel : Nat) (url : String) (k i : Nat)
      (h : i + 1 < (analyze_loop cfg fuel url k).length),
      ((analyze_loop cfg fuel url k).get ⟨i, Nat.lt_of_succ_lt h⟩).has_error
        = false := by
  intro fuel
  induction fuel with
  | zero => intro url k i h; simp [analyze_loop] at h
  | succ fuel ih =>
      intro url k i h
      rcases analyze_loop_succ_shape cfg fuel url k with hsh | ⟨u2, hsh, hne⟩
      · rw [hsh] at h
        simp at h
      · have h2 := h
        rw [hsh] at h2
        cases i with
        | zero =>
            have : ((analyze_loop cfg (fuel + 1) url k).get
                ⟨0, Nat.lt_of_succ_lt h⟩)
                = analyze_single_request cfg.execute url k := by
              rw [List.get_of_eq hsh]
              rfl
            rw [this]
            exact hne
        | succ j =>
            have hj : j + 1 < (analyze_loop cfg fuel u2 (k + 1)).length := by
              simpa using h2
            have hget : ((analyze_loop cfg (fuel + 1) url k).get
                ⟨j + 1, Nat.lt_of_succ_lt h⟩)
                = ((analyze_loop cfg fuel u2 (k + 1)).get
                  ⟨j, Nat.lt_of_succ_lt hj⟩) := by
              rw [List.get_of_eq hsh]
              rfl
            rw [hget]
            exact ih u2 (k + 1) j hj

/-- Every step of an `analyze_loop` chain is exactly the record produced by
`_analyze_single_request` for its own URL and step number: steps are kept
as produced, never discarded or edited by the loop. -/
theorem analyze_loop_mem_is_own_step (cfg : AnalyzerConfig) :
    ∀ (fuel : Nat) (url : String) (k : Nat) (s : StepMetrics),
      s ∈ analyze_loop cfg fuel url k →
      s = analyze_single_request cfg.execute s.url s.step_number := by
  intro fuel
  induction fuel with
  | zero => intro url k s hs; simp [analyze_loop] at hs
  | succ fuel ih =>
      intro url k s hs
      have hown : analyze_single_request cfg.execute url k
          = analyze_single_request cfg.execute
            (analyze_single_request cfg.execute url k).url
            (analyze_single_request cfg.execute url k).step_number := by
        rw [(analyze_single_request_url_and_number cfg.execute url k).1,
          (analyze_single_request_url_and_number cfg.execute url k).2]
      rcases analyze_loop_succ_shape cfg fuel url k with hsh | ⟨u2, hsh, _⟩
      · rw [hsh] at hs
        simp at hs
        rw [hs]
        exact hown
      · rw [hsh] at hs
        rcases List.mem_cons.1 hs with h | h
        · rw [h]
          exact hown
        · exact ih u2 (k + 1) s h

/-- C9: with `follow_redirects` disabled, `analyze_url` returns exactly one
step for every URL and executor behaviour, whatever the response status
(redirect or not) and whether the attempt succeeded or failed
(analyzer.py lines 153-164). -/
theorem analyze_url_no_follow_single_step (cfg : AnalyzerConfig)
    (url : String) (hf : cfg.follow_redirects = false)
    (hm : 0 ≤ cfg.max_redirects) :
    (analyze_url cfg url).length = 1 := by
  unfold analyze_url
  rw [if_neg (by omega)]
  simp [analyze_loop, hf]

/-- Witness for C9: a 301-with-Location target under a non-following
analyzer produces a single step. -/
theorem analyze_url_no_follow_single_step_witness :
    no_follow_cfg.follow_redirects = false
    ∧ 0 ≤ no_follow_cfg.max_redirects
    ∧ (analyze_url no_follow_cfg "http://example.com/").length = 1 :=
  ⟨rfl, by decide,
    analyze_url_no_follow_single_step no_follow_cfg _ rfl (by decide)⟩

/-- Helper for C3: under an executor whose every response is a 301 redirect
with a non-empty Location, the loop consumes its whole budget, one step per
unit of fuel, all steps carrying status 301. -/
theorem analyze_loop_infinite_redirect (cfg : AnalyzerConfig)
    (hf : cfg.follow_redirects = true)
    (hx : ∀ u, ∃ o, cfg.execute u = .ok o ∧ o.response.status = some 301
      ∧ ∃ l, o.response.location = some l ∧ l ≠ "") :
    ∀ (fuel : Nat) (url : String) (k : Nat),
      (analyze_loop cfg fuel url k).length = fuel
      ∧ ∀ s ∈ analyze_loop cfg fuel url k, s.response.status = some 301 := by
  intro fuel
  induction fuel with
  | zero =>
      intro url k
      exact ⟨rfl, by intro s hs; simp [analyze_loop] at hs⟩
  | succ fuel ih =>
      intro url k
      obtain ⟨o, ho, hst, l, hl, hlne⟩ := hx url
      have hstep := analyze_single_request_ok cfg.execute url k o ho
      have hloop : analyze_loop cfg (fuel + 1) url k
          = analyze_single_request cfg.execute url k
            :: analyze_loop cfg fuel (cfg.urljoin url l) (k + 1) := by
        simp only [analyze_loop]
        rw [hstep]
        simp +decide [hf, StepMetrics.has_error, StepMetrics.is_redirect,
          hst, hl, locationTruthy, hlne]
      rw [hloop]
      constructor
      · simp [(ih (cfg.urljoin url l) (k + 1)).1]
      · intro s hs
        rcases List.mem_cons.1 hs with h | h
        · rw [h, hstep]
          simpa using hst
        · exact (ih (cfg.urljoin url l) (k + 1)).2 s h

/-- C3: with redirect following enabled and a target whose every response
is a redirect (301 with non-empty Location), `analyze_url` with
`max_redirects = n` returns exactly `n + 1` steps — one initial attempt
plus `n` follows — all of status 301. -/
theorem analyze_url_infinite_redirect_chain (cfg : AnalyzerConfig)
    (url : String) (n : Nat) (hf : cfg.follow_redirects = true)
    (hm : cfg.max_redirects = (n : Int))
    (hx : ∀ u, ∃ o, cfg.execute u = .ok o ∧ o.response.status = some 301
      ∧ ∃ l, o.response.location = some l ∧ l ≠ "") :
    (analyze_url cfg url).length = n + 1
    ∧ ∀ s ∈ analyze_url cfg url, s.response.status = some 301 := by
  unfold analyze_url
  rw [if_neg (by omega)]
  have ht : cfg.max_redirects.toNat = n := by omega
  rw [ht]
  exact analyze_loop_infinite_redirect cfg hf hx (n + 1) url 1

/-- Witness for C3: `max_redirects = 5` against an infinite 301 target
yields exactly 6 steps. -/
theorem analyze_url_infinite_redirect_chain_witness :
    infinite_redirect_cfg.follow_redirects = true
    ∧ infinite_redirect_cfg.max_redirects = ((5 : Nat) : Int)
    ∧ (analyze_url infinite_redirect_cfg "http://example.com/").length
        = 5 + 1 := by
  refine ⟨rfl, rfl, ?_⟩
  exact (analyze_url_infinite_redirect_chain infinite_redirect_cfg
    "http://example.com/" 5 rfl rfl
    (fun u => ⟨_, rfl, rfl, "/next", rfl, by decide⟩)).1

/-- C4: `analyze_url` never propagates a failure out of a step: a failing
attempt keeps its `StepMetrics` in the returned list with `error` set to
the failure message, and no step in the returned chain other than the last
carries an error (so an errored step is always the last element). -/
theorem analyze_url_error_recorded_and_terminal (cfg : AnalyzerConfig)
    (url : String) (hm : 0 ≤ cfg.max_redirects) :
    (∀ (i : Nat) (h : i + 1 < (analyze_url cfg url).length),
      ((analyze_url cfg url).get ⟨i, Nat.lt_of_succ_lt h⟩).has_error
        = false)
    ∧ (∀ s ∈ analyze_url cfg url, s.has_error = true →
        ∃ f, cfg.execute s.url = .error f ∧ s.error = some f.msg)
    ∧ (∀ f, cfg.execute url = .error f →
        analyze_url cfg url = [analyze_single_request cfg.execute url 1]
        ∧ (analyze_single_request cfg.execute url 1).error = some f.msg) := by
  refine ⟨?_, ?_, ?_⟩
  · intro i h
    have hne : ¬cfg.max_redirects < 0 := by omega
    have hEq : analyze_url cfg url
        = analyze_loop cfg (cfg.max_redirects.toNat + 1) url 1 := by
      unfold analyze_url
      rw [if_neg hne]
    have h2 : i + 1
        < (analyze_loop cfg (cfg.max_redirects.toNat + 1) url 1).length := by
      rw [hEq] at h
      exact h
    rw [List.get_of_eq hEq]
    exact analyze_loop_error_is_terminal cfg (cfg.max_redirects.toNat + 1)
      url 1 i h2
  · intro s hs he
    have hEq : analyze_url cfg url
        = analyze_loop cfg (cfg.max_redirects.toNat + 1) url 1 := by
      unfold analyze_url
      rw [if_neg (by omega)]
    rw [hEq] at hs
    have hmem := analyze_loop_mem_is_own_step cfg
      (cfg.max_redirects.toNat + 1) url 1 s hs
    cases hex : cfg.execute s.url with
    | ok o =>
        exfalso
        rw [hmem,
          analyze_single_request_ok cfg.execute s.url s.step_number o hex]
          at he
        simp [StepMetrics.has_error] at he
    | error f =>
        exact ⟨f, rfl, by
          rw [hmem]
          exact (analyze_single_request_err cfg.execute s.url s.step_number
            f hex).2.2⟩
  · intro f hfail
    have herr := analyze_single_request_err cfg.execute url 1 f hfail
    refine ⟨?_, herr.2.2⟩
    unfold analyze_url
    rw [if_neg (by omega)]
    have he : (analyze_single_request cfg.execute url 1).has_error = true := by
      unfold StepMetrics.has_error
      rw [herr.2.2]
      rfl
    simp only [analyze_loop]
    by_cases h1 : cfg.follow_redirects = true <;> simp [h1, he]

/-- Witness for C4: an executor that always raises `HTTPClientError` yields
a one-step chain whose step records the message. -/
theorem analyze_url_error_recorded_and_terminal_witness :
    failing_cfg.execute "http://example.com/"
      = .error (.clientError "DNS resolution failed: boom")
    ∧ analyze_url failing_cfg "http://example.com/"
        = [analyze_single_request failing_cfg.execute "http://example.com/" 1]
    ∧ (analyze_single_request failing_cfg.execute "http://example.com/"
        1).error = some "DNS resolution failed: boom" := by
  have h := (analyze_url_error_recorded_and_terminal failing_cfg
    "http://example.com/" (by decide)).2.2
    (.clientError "DNS resolution failed: boom") rfl
  exact ⟨rfl, h.1, h.2⟩

/-- C5: with redirect following enabled, a 3xx response whose Location
header is present but empty is not followed: the chain stops at that single
step and the step preserves `location = ""`, distinct from an absent
header. -/
theorem analyze_url_empty_location_not_followed (cfg : AnalyzerConfig)
    (url : String) (hf : cfg.follow_redirects = true)
    (hm : 0 ≤ cfg.max_redirects) (o : RequestOutcome)
    (ho : cfg.execute url = .ok o) (st : Int)
    (hst : o.response.status = some st) (h3 : 300 ≤ st) (h4 : st < 400)
    (hloc : o.response.location = some "") :
    analyze_url cfg url = [analyze_single_request cfg.execute url 1]
    ∧ (analyze_single_request cfg.execute url 1).response.location
        = some "" := by
  have hstep := analyze_single_request_ok cfg.execute url 1 o ho
  constructor
  · unfold analyze_url
    rw [if_neg (by omega)]
    simp only [analyze_loop]
    rw [hstep]
    simp +decide [hf, StepMetrics.has_error, StepMetrics.is_redirect, hst,
      hloc, locationTruthy, h3, h4]
  · rw [hstep]
    simpa using hloc

/-- Witness for C5: a 301 with `Location: ""` stops the chain at one step
with the empty location preserved. -/
theorem analyze_url_empty_location_not_followed_witness :
    analyze_url empty_location_cfg "http://example.com/"
      = [analyze_single_request empty_location_cfg.execute
          "http://example.com/" 1]
    ∧ (analyze_single_request empty_location_cfg.execute
        "http://example.com/" 1).response.location = some "" :=
  analyze_url_empty_location_not_followed empty_location_cfg
    "http://example.com/" rfl (by decide)
    { response := { status := some 301, location := some "" } } rfl
    301 rfl (by decide) (by decide) rfl

/-- C6: when a followed redirect carries a relative Location, the next step
requests the result of joining the current URL with that Location through
the analyzer's `urljoin` (the stdlib relative-URL resolution at analyzer.py
line 175): a 301 with `Location: /next` followed by a 200 yields exactly
two steps, the second at the joined URL. -/
theorem analyze_url_relative_redirect_joined (cfg : AnalyzerConfig)
    (url : String) (hf : cfg.follow_redirects = true)
    (hm : 1 ≤ cfg.max_redirects) (o₁ : RequestOutcome)
    (h1 : cfg.execute url = .ok o₁)
    (hs1 : o₁.response.status = some 301) (l : String)
    (hl : o₁.response.location = some l) (hne : l ≠ "")
    (o₂ : RequestOutcome) (h2 : cfg.execute (cfg.urljoin url l) = .ok o₂)
    (hs2 : o₂.response.status = some 200) :
    analyze_url cfg url
      = [analyze_single_request cfg.execute url 1,
         analyze_single_request cfg.execute (cfg.urljoin url l) 2]
    ∧ (analyze_single_request cfg.execute (cfg.urljoin url l) 2).url
        = cfg.urljoin url l := by
  have hstep1 := analyze_single_request_ok cfg.execute url 1 o₁ h1
  have hstep2 :=
    analyze_single_request_ok cfg.execute (cfg.urljoin url l) 2 o₂ h2
  constructor
  · obtain ⟨k, hk⟩ : ∃ k, cfg.max_redirects.toNat = k + 1 :=
      ⟨cfg.max_redirects.toNat - 1, by omega⟩
    unfold analyze_url
    rw [if_neg (by omega), hk]
    simp only [analyze_loop]
    rw [hstep1]
    simp +decide [hf, StepMetrics.has_error, StepMetrics.is_redirect, hs1,
      hl, hs2, locationTruthy, hne, hstep2]
  · rw [hstep2]

/-- Witness for C6: `http://example.com/start` answering 301 with
`Location: /next` and then 200 yields two steps, the second at
`http://example.com/next`. -/
theorem analyze_url_relative_redirect_joined_witness :
    analyze_url relative_redirect_cfg "http://example.com/start"
      = [analyze_single_request relative_redirect_cfg.execute
          "http://example.com/start" 1,
         analyze_single_request relative_redirect_cfg.execute
          "http://example.com/next" 2]
    ∧ (analyze_single_request relative_redirect_cfg.execute
        "http://example.com/next" 2).url = "http://example.com/next" := by
  have h := analyze_url_relative_redirect_joined relative_redirect_cfg
    "http://example.com/start" rfl (by decide)
    { response := { status := some 301, location := some "/next" } }
    rfl rfl "/next" rfl (by decide)
    { response := { status := some 200 } } rfl rfl
  have hjoin : relative_redirect_cfg.urljoin "http://example.com/start"
      "/next" = "http://example.com/next" := by decide
  rw [hjoin] at h
  exact h

/-- C1: when the RequestExecutor reconciles timing for an HTTPS target and
the trace supplied no precise connect/TLS value, it computes
`connection_phase_ms = max(0, ttfb_ms - dns_ms)`, assigns 30 percent of it
to `connect_ms` and 70 percent to `tls_ms` (keeping any precisely traced
entry and estimating only the missing one), and sets `is_estimated` to
true. -/
theorem https_reconciliation_splits_30_70 (base : TimingMetrics)
    (connect_ms? tls_ms? : Option ℚ)
    (h : connect_ms? = none ∨ tls_ms? = none) :
    (build_timing_metrics base true connect_ms? tls_ms?).is_estimated = true
    ∧ (build_timing_metrics base true connect_ms? tls_ms?).connect_ms
        = connect_ms?.getD (3 / 10 * max 0 (base.ttfb_ms - base.dns_ms))
    ∧ (build_timing_metrics base true connect_ms? tls_ms?).tls_ms
        = tls_ms?.getD (7 / 10 * max 0 (base.ttfb_ms - base.dns_ms)) := by
  cases connect_ms? with
  | none =>
      cases tls_ms? <;>
        simp [build_timing_metrics, TimingMetrics.calculate_derived]
  | some c =>
      cases tls_ms? with
      | none => simp [build_timing_metrics, TimingMetrics.calculate_derived]
      | some t => simp at h

/-- Witness for C1: with dns 10ms and ttfb 100ms and no precise trace
values, the 90ms connection phase is split into 27ms connect and 63ms TLS
and the record is flagged estimated. -/
theorem https_reconciliation_splits_30_70_witness :
    (build_timing_metrics { dns_ms := 10, ttfb_ms := 100, total_ms := 150 }
        true none none).is_estimated = true
    ∧ (build_timing_metrics { dns_ms := 10, ttfb_ms := 100, total_ms := 150 }
        true none none).connect_ms = 27
    ∧ (build_timing_metrics { dns_ms := 10, ttfb_ms := 100, total_ms := 150 }
        true none none).tls_ms = 63 := by
  have h := https_reconciliation_splits_30_70
    { dns_ms := 10, ttfb_ms := 100, total_ms := 150 } none none (Or.inl rfl)
  refine ⟨h.1, ?_, ?_⟩
  · rw [h.2.1]; norm_num
  · rw [h.2.2]; norm_num

/-- C2: for every `TimingMetrics`, `calculate_derived()` yields
`wait_ms = max(0, ttfb_ms - (dns_ms + connect_ms + tls_ms))` and
`xfer_ms = max(0, total_ms - ttfb_ms)`; in particular a deficit of ttfb
against the phase sum clamps `wait_ms` to zero and `total_ms < ttfb_ms`
clamps `xfer_ms` to zero — negative raw differences never signal an
error. -/
theorem calculate_derived_clamps (t : TimingMetrics) :
    t.calculate_derived.wait_ms
      = max 0 (t.ttfb_ms - (t.dns_ms + t.connect_ms + t.tls_ms))
    ∧ t.calculate_derived.xfer_ms = max 0 (t.total_ms - t.ttfb_ms)
    ∧ (t.ttfb_ms < t.dns_ms + t.connect_ms + t.tls_ms →
        t.calculate_derived.wait_ms = 0)
    ∧ (t.total_ms < t.ttfb_ms → t.calculate_derived.xfer_ms = 0) := by
  refine ⟨rfl, rfl, ?_, ?_⟩ <;> intro h <;>
    simp only [TimingMetrics.calculate_derived] <;>
    exact max_eq_left (by linarith)

/-- Witness for C2: a record whose phase sum 150ms exceeds its 100ms ttfb
gets `wait_ms = 0`, and one whose 90ms total is below its 100ms ttfb gets
`xfer_ms = 0`. -/
theorem calculate_derived_clamps_witness :
    (TimingMetrics.calculate_derived
      { dns_ms := 50, connect_ms := 50, tls_ms := 50, ttfb_ms := 100,
        total_ms := 90 }).wait_ms = 0
    ∧ (TimingMetrics.calculate_derived
      { dns_ms := 50, connect_ms := 50, tls_ms := 50, ttfb_ms := 100,
        total_ms := 90 }).xfer_ms = 0 := by
  have h := calculate_derived_clamps
    { dns_ms := 50, connect_ms := 50, tls_ms := 50, ttfb_ms := 100,
      total_ms := 90 }
  exact ⟨h.2.2.1 (by norm_num), h.2.2.2 (by norm_num)⟩

/-- C7: for every string `v`, `mask_sensitive_value(v, show_chars=4)`
returns exactly `"****"` when `len(v) <= 8` and
`v[:4] + "****" + v[-4:]` otherwise, and the function is idempotent:
masking a masked value changes nothing. -/
theorem mask_sensitive_value_formula_and_idempotent (v : List Char) :
    (v.length ≤ 8 → mask_sensitive_value v = MASK_PATTERN)
    ∧ (8 < v.length →
        mask_sensitive_value v
          = v.take 4 ++ MASK_PATTERN ++ v.drop (v.length - 4))
    ∧ mask_sensitive_value (mask_sensitive_value v)
        = mask_sensitive_value v := by
  have hshort : ∀ w : List Char, w.length ≤ 8 →
      mask_sensitive_value w = MASK_PATTERN := by
    intro w hw
    unfold mask_sensitive_value
    rw [if_pos (by omega)]
  have hlong : ∀ w : List Char, 8 < w.length →
      mask_sensitive_value w
        = w.take 4 ++ MASK_PATTERN ++ w.drop (w.length - 4) := by
    intro w hw
    unfold mask_sensitive_value
    rw [if_neg (by omega)]
  refine ⟨hshort v, hlong v, ?_⟩
  by_cases h : v.length ≤ 8
  · rw [hshort v h]
    exact hshort MASK_PATTERN (by decide)
  · push_neg at h
    have hA : (v.take 4).length = 4 := by
      rw [List.length_take]; omega
    have hB : (v.drop (v.length - 4)).length = 4 := by
      rw [List.length_drop]; omega
    have hmask := hlong v h
    have hlen : (mask_sensitive_value v).length = 12 := by
      rw [hmask]
      simp only [List.length_append, hA, hB]
      decide
    rw [hlong (mask_sensitive_value v) (by omega)]
    rw [hlen, hmask]
    rw [List.take_append_eq_append_take, List.take_append_eq_append_take]
    rw [List.drop_append_eq_append_drop, List.drop_append_eq_append_drop]
    rw [List.take_of_length_le hA.le]
    rw [List.drop_eq_nil_of_le (show (List.take 4 v).length ≤ 12 - 4 by
      rw [hA]; norm_num)]
    simp only [hA, List.length_append]
    norm_num [MASK_PATTERN]

/-- Witness for C7: the doc examples of utils.py — an 18-character bearer
token masks to its first and last four characters around the mask pattern,
a 5-character value masks to exactly the pattern, and both are fixed points
of a second masking. -/
theorem mask_sensitive_value_witness :
    8 < "Bearer token123456".toList.length
    ∧ mask_sensitive_value ("Bearer token123456".toList)
        = "Bear****3456".toList
    ∧ "short".toList.length ≤ 8
    ∧ mask_sensitive_value ("short".toList) = "****".toList := by
  refine ⟨by decide, ?_, by decide, ?_⟩
  · have h := (mask_sensitive_value_formula_and_idempotent
      ("Bearer token123456".toList)).2.1 (by decide)
    rw [h]; decide
  · have h := (mask_sensitive_value_formula_and_idempotent
      ("short".toList)).1 (by decide)
    rw [h]; decide

/-- C8: `calculate_days_until` returns the whole-day component of
`target - now` under timedelta flooring (truncation toward negative
infinity): the result `d` satisfies `d * day ≤ target - now < (d+1) * day`;
a past target yields a negative result, and a target earlier than now by
any positive amount less than one day yields -1, not 0. -/
theorem calculate_days_until_floors (target now : Int) :
    (MICROS_PER_DAY * calculate_days_until target now ≤ target - now
      ∧ target - now < MICROS_PER_DAY * (calculate_days_until target now + 1))
    ∧ (target < now → calculate_days_until target now < 0)
    ∧ (now - MICROS_PER_DAY < target → target < now →
        calculate_days_until target now = -1) := by
  have hrw : calculate_days_until target now
      = (target - now) / MICROS_PER_DAY := by
    unfold calculate_days_until timedelta_days
    exact Int.fdiv_eq_ediv _ (by unfold MICROS_PER_DAY; omega)
  rw [hrw]
  unfold MICROS_PER_DAY
  refine ⟨⟨?_, ?_⟩, ?_, ?_⟩ <;> omega

/-- Witness for C8: a target one microsecond in the past yields -1. -/
theorem calculate_days_until_floors_witness :
    (0 : Int) - MICROS_PER_DAY < -1 ∧ (-1 : Int) < 0
    ∧ calculate_days_until (-1) 0 = -1 := by
  refine ⟨by unfold MICROS_PER_DAY; omega, by omega, ?_⟩
  exact (calculate_days_until_floors (-1) 0).2.2
    (by unfold MICROS_PER_DAY; omega) (by omega)

/-- Helper for C10: the UTC conversion either reports an error or returns a
value that is timezone-aware with offset zero. -/
theorem astimezone_utc_shape (p : PyDatetime) :
    (∃ e, astimezone_utc p = .error e)
    ∨ ∃ d, astimezone_utc p = .ok d ∧ d.tz_offset_minutes = some 0 := by
  unfold astimezone_utc
  rcases hp : p.tz_offset_minutes with _ | off
  · exact .inl ⟨_, rfl⟩
  · dsimp only
    split_ifs <;>
      first
        | exact .inl ⟨_, rfl⟩
        | exact .inr ⟨_, rfl, rfl⟩

/-- Helper for C10: whenever the UTC conversion returns a value, that value
is timezone-aware with offset zero. -/
theorem astimezone_utc_sets_utc (p d : PyDatetime)
    (h : astimezone_utc p = .ok d) : d.tz_offset_minutes = some 0 := by
  rcases astimezone_utc_shape p with ⟨e, he⟩ | ⟨d2, hd, ht⟩
  · rw [he] at h
    simp at h
  · rw [hd] at h
    simp at h
    rw [← h]
    exact ht

/-- C10 counterexample: `parse_http_date` is not total — the input
`Mon, 01 Jan 0001 00:00:00 +0100` parses via `strptime` (year 1 is the
datetime minimum and is accepted), but `astimezone(UTC)` then moves the
instant before `datetime.min`, raising `OverflowError`, which the
`except ValueError` clause does not catch, so the exception escapes the
function instead of `None` being returned. -/
theorem parse_http_date_overflow_counterexample :
    parse_http_date ("Mon, 01 Jan 0001 00:00:00 +0100".toList)
      = .overflowError := by
  rfl

/-- C10 (amended): every call to `parse_http_date` either returns — `None`
on a `ValueError` during parsing or construction, or a timezone-aware
datetime converted to UTC — or, for inputs that parse to an instant whose
UTC conversion leaves the supported `datetime` range (years 1-9999), lets
an uncaught `OverflowError` escape.  Every returned datetime carries offset
zero, and the documented example input parses to the documented UTC
value. -/
theorem parse_http_date_returns_utc_or_none :
    (∀ (s : List Char) (d : PyDatetime),
        parse_http_date s = .returned (some d) →
          d.tz_offset_minutes = some 0)
    ∧ parse_http_date ("Mon, 22 Oct 2025 12:00:00 GMT".toList)
        = .returned (some ⟨2025, 10, 22, 12, 0, 0, some 0⟩) := by
  constructor
  · intro s d h
    unfold parse_http_date at h
    cases hst : strptime_rfc7231 (replace_gmt s) with
    | none => rw [hst] at h; simp at h
    | some p =>
        rw [hst] at h
        dsimp only at h
        cases hz : astimezone_utc p with
        | error e => rw [hz] at h; simp at h
        | ok d2 =>
            rw [hz] at h
            simp at h
            rw [← h]
            exact astimezone_utc_sets_utc p d2 hz
  · rfl

/-- Witness for C10: the RFC 7231 example from the utils.py doc comment is
returned as an aware UTC datetime. -/
theorem parse_http_date_returns_utc_or_none_witness :
    parse_http_date ("Mon, 22 Oct 2025 12:00:00 GMT".toList)
      = .returned (some ⟨2025, 10, 22, 12, 0, 0, some 0⟩)
    ∧ (⟨2025, 10, 22, 12, 0, 0, some 0⟩ : PyDatetime).tz_offset_minutes
        = some 0 :=
  ⟨parse_http_date_returns_utc_or_none.2,
    parse_http_date_returns_utc_or_none.1
      ("Mon, 22 Oct 2025 12:00:00 GMT".toList)
      ⟨2025, 10, 22, 12, 0, 0, some 0⟩
      parse_http_date_returns_utc_or_none.2⟩

end Httptap
